import Mathlib

/-!
Verification of the shot-data pipeline of `kings-shot-charts`.

The development shallowly embeds the functions of
`src/data/data_loader.py` (column validation, `shot_made` coercion,
dtype conversion, range validation, CSV loading, summary aggregation,
row filtering) and the three-point geometry of
`src/visualization/court.py` with the constants of
`src/utils/config.py`, and proves or refutes the specified properties.

Modelling conventions:
- pandas floats are modelled as exact rationals (`ℚ`); the geometric
  computations of `court.py`, which the spec states over real-valued
  identities, are modelled over `ℝ`.
- missing cells (`NaN` / `None` / `pd.NA`) are modelled as `Option.none`
  or by the `RawValue.nan` constructor;
- Python string methods (`lower`, `strip`, `upper`, substring
  containment) are modelled on the character lists of Lean strings.
-/

namespace KingsShotCharts

/-! ### Python / pandas string primitives -/

/-- Python `str.lower()`: lowercase every character. -/
def lowerStr (s : String) : String := ⟨s.data.map Char.toLower⟩

/-- Python `str.upper()`: uppercase every character. -/
def upperStr (s : String) : String := ⟨s.data.map Char.toUpper⟩

/-- Whitespace characters removed by Python `str.strip()`. -/
def isPySpace (c : Char) : Bool :=
  c == ' ' || c == '\t' || c == '\n' || c == '\r' || c == '\x0b' || c == '\x0c'

/-- Python `str.strip()`: drop leading and trailing whitespace. -/
def stripStr (s : String) : String :=
  ⟨((s.data.dropWhile isPySpace).reverse.dropWhile isPySpace).reverse⟩

/-- Boolean test that `pat` is a leading segment of `s` (character lists). -/
def isPrefixB : List Char → List Char → Bool
  | [], _ => true
  | _ :: _, [] => false
  | a :: as, b :: bs => a == b && isPrefixB as bs

/-- Boolean substring containment on character lists. -/
def containsSub : List Char → List Char → Bool
  | s, pat =>
    isPrefixB pat s ||
      match s with
      | [] => false
      | _ :: t => containsSub t pat

/-- Case-insensitive substring containment, modelling
`Series.str.contains(pat, case=False)` for the plain (non-regex-special)
patterns this code base uses; the regex interpretation pandas would give
to special characters in the pattern is outside the model. -/
def strContainsCI (hay pat : String) : Bool :=
  containsSub (lowerStr hay).data (lowerStr pat).data

/-! ### Raw cell values

A raw CSV cell as `pandas.read_csv` produces it: a missing value (NaN),
a boolean, a number, or a string. -/

/-- One raw cell of a parsed CSV table. -/
inductive RawValue where
  | nan : RawValue
  | boolean (b : Bool) : RawValue
  | num (q : ℚ) : RawValue
  | str (s : String) : RawValue
deriving DecidableEq

/-- String literals the code maps to `True` (`data_loader.py` line 122). -/
def trueLiterals : List String := ["true", "1", "yes", "made", "y"]

/-- String literals the code maps to `False` (`data_loader.py` line 124). -/
def falseLiterals : List String := ["false", "0", "no", "missed", "n"]

/-- Embedding of `convert_shot_made` (`data_loader.py` lines 96-127):
missing input maps to `none`, booleans pass through, numbers are
truthiness-coerced, strings are lowercased, stripped and looked up in the
literal tables, and anything else raises `ValueError` naming the value. -/
def convert_shot_made : RawValue → Except String (Option Bool)
  | .nan => .ok none
  | .boolean b => .ok (some b)
  | .num q => .ok (some (q != 0))
  | .str s =>
    let value_lower := stripStr (lowerStr s)
    if trueLiterals.contains value_lower then .ok (some true)
    else if falseLiterals.contains value_lower then .ok (some false)
    else .error ("Cannot convert \x27" ++ s ++ "\x27 to boolean")

/-! ### Normalized tables

A row of a table produced by `convert_dtypes`: the fourteen required
columns with their canonical types. Nullable cells (`pd.NA` / `None` /
`NaN`) are `none`. pandas floats are modelled as exact rationals. -/

/-- One normalized shot record. -/
structure ShotRow where
  game_id : String
  player_id : Option Int
  player_name : Option String
  team : Option String
  period : Option Int
  minutes_remaining : Option Int
  seconds_remaining : Option Int
  shot_made : Option Bool
  shot_type : Option String
  shot_distance : Option ℚ
  loc_x : Option ℚ
  loc_y : Option ℚ
  shot_zone : Option String
  action_type : Option String
deriving DecidableEq

/-- A normalized DataFrame: its column labels (extra columns are passed
through unchanged, so the label list is kept explicitly) and its rows. -/
structure ShotTable where
  cols : List String
  rows : List ShotRow
deriving DecidableEq

/-! ### Filter engine (`filter_shots`, `data_loader.py` lines 358-416)

Each criterion's row predicate mirrors one boolean mask of the code; a
`none` cell never satisfies a mask (`na=False` for `str.contains`, and
comparisons against missing values are false in pandas masks). -/

/-- Mask for `player_name.str.contains(pn, case=False, na=False)`. -/
def nameMask (pn : String) (r : ShotRow) : Bool :=
  match r.player_name with
  | some s => strContainsCI s pn
  | none => false

/-- Mask for `player_id == pid`. -/
def playerIdMask (pid : Int) (r : ShotRow) : Bool := r.player_id == some pid

/-- Mask for `game_id == str(gid)`. -/
def gameIdMask (gid : String) (r : ShotRow) : Bool := r.game_id == gid

/-- Mask for `team.str.upper() == tm.upper()`. -/
def teamMask (tm : String) (r : ShotRow) : Bool :=
  match r.team with
  | some t => upperStr t == upperStr tm
  | none => false

/-- Mask for `period == p`. -/
def periodMask (p : Int) (r : ShotRow) : Bool := r.period == some p

/-- Mask for `shot_type.str.contains(st, case=False, na=False)`. -/
def shotTypeMask (st : String) (r : ShotRow) : Bool :=
  match r.shot_type with
  | some s => strContainsCI s st
  | none => false

/-- Mask for `shot_made == m` (object-dtype comparison: a `None` cell
compares unequal to both `True` and `False`). -/
def madeMask (m : Bool) (r : ShotRow) : Bool := r.shot_made == some m

/-- One `if crit is not None: filtered = filtered[mask]` step. -/
def maybeFilter {α : Type} (crit : Option α) (mask : α → ShotRow → Bool)
    (rows : List ShotRow) : List ShotRow :=
  match crit with
  | none => rows
  | some a => rows.filter (mask a)

/-- Embedding of `filter_shots` (`data_loader.py` lines 358-416): copy
the table, then apply the seven optional boolean-mask selections in the
order of the code. -/
def filter_shots (df : ShotTable) (player_name : Option String)
    (player_id : Option Int) (game_id : Option String)
    (team : Option String) (period : Option Int)
    (shot_type : Option String) (made_only : Option Bool) : ShotTable :=
  let filtered := df.rows
  let filtered := maybeFilter player_name nameMask filtered
  let filtered := maybeFilter player_id playerIdMask filtered
  let filtered := maybeFilter game_id gameIdMask filtered
  let filtered := maybeFilter team teamMask filtered
  let filtered := maybeFilter period periodMask filtered
  let filtered := maybeFilter shot_type shotTypeMask filtered
  let filtered := maybeFilter made_only madeMask filtered
  { cols := df.cols, rows := filtered }

/-- The conjunction of all supplied criteria, as the spec states it:
an omitted criterion imposes no constraint. -/
def rowMatches (player_name : Option String) (player_id : Option Int)
    (game_id : Option String) (team : Option String) (period : Option Int)
    (shot_type : Option String) (made_only : Option Bool)
    (r : ShotRow) : Bool :=
  player_name.all (fun pn => nameMask pn r) &&
  player_id.all (fun pid => playerIdMask pid r) &&
  game_id.all (fun gid => gameIdMask gid r) &&
  team.all (fun tm => teamMask tm r) &&
  period.all (fun p => periodMask p r) &&
  shot_type.all (fun st => shotTypeMask st r) &&
  made_only.all (fun m => madeMask m r)

/-! ### Summary aggregator (`get_shot_summary`, lines 309-355) -/

/-- The value of `get_shot_summary`: the eleven aggregate figures. -/
structure ShotSummary where
  total_shots : Nat
  made_shots : Nat
  missed_shots : Int
  fg_pct : ℚ
  two_pt_made : Nat
  two_pt_total : Nat
  two_pt_pct : ℚ
  three_pt_made : Nat
  three_pt_total : Nat
  three_pt_pct : ℚ
  unique_players : Nat
  unique_games : Nat
deriving DecidableEq

/-- `df['shot_made'].sum()` on the object-dtype tri-state column: pandas
skips missing values, so the sum counts the `True` cells. -/
def countMade (rows : List ShotRow) : Nat :=
  (rows.filter (fun r => r.shot_made == some true)).length

/-- Rows whose `shot_type` contains "2PT" / "3PT" case-insensitively
(`str.contains(..., case=False, na=False)`). -/
def typeRows (pat : String) (rows : List ShotRow) : List ShotRow :=
  rows.filter (fun r =>
    match r.shot_type with
    | some s => strContainsCI s pat
    | none => false)

/-- Embedding of `get_shot_summary` (`data_loader.py` lines 309-355). -/
def get_shot_summary (df : ShotTable) : ShotSummary :=
  let total_shots := df.rows.length
  let made_shots := countMade df.rows
  let fg_pct : ℚ := if total_shots > 0 then (made_shots : ℚ) / total_shots else 0
  let twos := typeRows "2PT" df.rows
  let threes := typeRows "3PT" df.rows
  let two_made := countMade twos
  let two_total := twos.length
  let two_pct : ℚ := if two_total > 0 then (two_made : ℚ) / two_total else 0
  let three_made := countMade threes
  let three_total := threes.length
  let three_pct : ℚ := if three_total > 0 then (three_made : ℚ) / three_total else 0
  { total_shots := total_shots
    made_shots := made_shots
    missed_shots := (total_shots : Int) - made_shots
    fg_pct := fg_pct
    two_pt_made := two_made
    two_pt_total := two_total
    two_pt_pct := two_pct
    three_pt_made := three_made
    three_pt_total := three_total
    three_pt_pct := three_pct
    unique_players := (df.rows.filterMap (fun r => r.player_name)).dedup.length
    unique_games := (df.rows.map (fun r => r.game_id)).dedup.length }

/-- Rows with `shot_made` false. -/
def countMissedRows (rows : List ShotRow) : Nat :=
  (rows.filter (fun r => r.shot_made == some false)).length

/-- Rows with `shot_made` null (unknown). -/
def countUnknown (rows : List ShotRow) : Nat :=
  (rows.filter (fun r => r.shot_made == none)).length

/-- The required column names (`data_loader.py` lines 21-36). -/
def REQUIRED_COLUMNS : List String :=
  ["game_id", "player_id", "player_name", "team", "period",
   "minutes_remaining", "seconds_remaining", "shot_made", "shot_type",
   "shot_distance", "loc_x", "loc_y", "shot_zone", "action_type"]

/-- A concrete normalized row whose `shot_made` is unknown (null). -/
def unknownRow : ShotRow :=
  { game_id := "0022300001", player_id := some 100,
    player_name := some "A Player", team := some "SAC", period := some 1,
    minutes_remaining := some 10, seconds_remaining := some 30,
    shot_made := none, shot_type := some "2PT Field Goal",
    shot_distance := some 5, loc_x := some 10, loc_y := some 20,
    shot_zone := some "Paint", action_type := some "Jump Shot" }

/-- A concrete normalized row whose shot was made. -/
def knownRow : ShotRow :=
  { unknownRow with shot_made := some true, game_id := "0022300002" }

/-- A one-row table whose single `shot_made` cell is null. -/
def unknownTable : ShotTable :=
  { cols := REQUIRED_COLUMNS, rows := [unknownRow] }

/-- A one-row table with a made shot (no null `shot_made`). -/
def knownTable : ShotTable :=
  { cols := REQUIRED_COLUMNS, rows := [knownRow] }

/-- An empty normalized table. -/
def emptyTable : ShotTable := { cols := REQUIRED_COLUMNS, rows := [] }

/-! ### Frame property of `filter_shots` (claim C9)

The body of `filter_shots` is re-executed here with the caller's table
carried explicitly through every statement: `df.copy()` (line 389)
produces a fresh table, and each boolean-mask selection
`filtered[mask]` produces a fresh table from `filtered`. None of these
primitives writes to the `df` binding, which is what the claim asserts;
an in-place step would show up here as an assignment to the `df` field
of the state. -/

/-- `DataFrame.copy()`: a fresh table with the same contents. -/
def copyTable (t : ShotTable) : ShotTable := { cols := t.cols, rows := t.rows }

/-- Boolean-mask selection `t[mask]`: a fresh table holding the rows
satisfying the mask. -/
def maskTable (t : ShotTable) (p : ShotRow → Bool) : ShotTable :=
  { cols := t.cols, rows := t.rows.filter p }

/-- The local variables of one `filter_shots` call: the caller's
argument `df` and the local `filtered`. -/
structure FilterCallState where
  df : ShotTable
  filtered : ShotTable
deriving DecidableEq

/-- One `if crit is not None: filtered = filtered[mask]` statement,
acting on the call state. -/
def filterStep {α : Type} (crit : Option α) (mask : α → ShotRow → Bool)
    (st : FilterCallState) : FilterCallState :=
  match crit with
  | none => st
  | some a => { st with filtered := maskTable st.filtered (mask a) }

/-- The `filter_shots` body (`data_loader.py` lines 389-416) as a
sequence of state updates starting from `filtered = df.copy()`. -/
def filter_shots_exec (df : ShotTable) (player_name : Option String)
    (player_id : Option Int) (game_id : Option String)
    (team : Option String) (period : Option Int)
    (shot_type : Option String) (made_only : Option Bool) :
    FilterCallState :=
  let st : FilterCallState := { df := df, filtered := copyTable df }
  let st := filterStep player_name nameMask st
  let st := filterStep player_id playerIdMask st
  let st := filterStep game_id gameIdMask st
  let st := filterStep team teamMask st
  let st := filterStep period periodMask st
  let st := filterStep shot_type shotTypeMask st
  let st := filterStep made_only madeMask st
  st

/-! ### Range validator (`validate_data_ranges`, lines 187-242)

Each of the six checks mirrors one block of the code: if the column has
any non-null value, count the rows outside the range (a null cell never
counts as a violation, as in a pandas mask) and, when the count is
positive, emit one warning string carrying the count. -/

/-- The rows violating an integer range. -/
def intRangeInvalid (lo hi : Int) (get : ShotRow → Option Int)
    (df : ShotTable) : List ShotRow :=
  df.rows.filter (fun r =>
    match get r with
    | some v => decide (v < lo) || decide (v > hi)
    | none => false)

/-- One range check over a nullable integer column. -/
def intRangeWarning (lo hi : Int) (get : ShotRow → Option Int)
    (desc : String) (df : ShotTable) : Option String :=
  if df.rows.any (fun r => (get r).isSome) then
    if (intRangeInvalid lo hi get df).length > 0 then
      some ("Found " ++ toString (intRangeInvalid lo hi get df).length ++
        " shots with " ++ desc)
    else none
  else none

/-- The rows violating a float range. -/
def ratRangeInvalid (lo hi : ℚ) (get : ShotRow → Option ℚ)
    (df : ShotTable) : List ShotRow :=
  df.rows.filter (fun r =>
    match get r with
    | some v => decide (v < lo) || decide (v > hi)
    | none => false)

/-- One range check over a nullable float column. -/
def ratRangeWarning (lo hi : ℚ) (get : ShotRow → Option ℚ)
    (desc : String) (df : ShotTable) : Option String :=
  if df.rows.any (fun r => (get r).isSome) then
    if (ratRangeInvalid lo hi get df).length > 0 then
      some ("Found " ++ toString (ratRangeInvalid lo hi get df).length ++
        " shots with " ++ desc)
    else none
  else none

/-- The six possible warnings, in the order the code checks them. -/
def rangeWarningOpts (df : ShotTable) : List (Option String) :=
  [intRangeWarning 1 10 (fun r => r.period) "unusual period values" df,
   intRangeWarning 0 12 (fun r => r.minutes_remaining)
     "minutes outside 0-12 range" df,
   intRangeWarning 0 59 (fun r => r.seconds_remaining)
     "seconds outside 0-59 range" df,
   ratRangeWarning 0 50 (fun r => r.shot_distance)
     "distance outside 0-50 feet" df,
   ratRangeWarning (-300) 300 (fun r => r.loc_x)
     "loc_x outside court bounds" df,
   ratRangeWarning (-100) 500 (fun r => r.loc_y)
     "loc_y outside court bounds" df]

/-- The accumulated warning list of `validate_data_ranges`. -/
def rangeWarnings (df : ShotTable) : List String :=
  (rangeWarningOpts df).reduceOption

/-- Embedding of `validate_data_ranges` (lines 187-242): collect the
warnings; in strict mode with warnings present, raise one aggregated
`DataValidationError` carrying all warning text, else return the list. -/
def validate_data_ranges (df : ShotTable) (strict : Bool) :
    Except String (List String) :=
  if strict && !(rangeWarnings df).isEmpty then
    .error ("Data validation warnings:\n" ++
      String.intercalate "\n" (rangeWarnings df))
  else .ok (rangeWarnings df)

/-- The six warning descriptions. -/
def rangeDescs : List String :=
  ["unusual period values", "minutes outside 0-12 range",
   "seconds outside 0-59 range", "distance outside 0-50 feet",
   "loc_x outside court bounds", "loc_y outside court bounds"]

/-- A row with an out-of-range period (0). -/
def badRangeRow : ShotRow :=
  { unknownRow with period := some 0, shot_made := some false }

/-- A one-row table violating the period range. -/
def badRangeTable : ShotTable :=
  { cols := REQUIRED_COLUMNS, rows := [badRangeRow] }

/-- A row with every nullable column null. -/
def nullColsRow : ShotRow :=
  { game_id := "g", player_id := none, player_name := none, team := none,
    period := none, minutes_remaining := none, seconds_remaining := none,
    shot_made := none, shot_type := none, shot_distance := none,
    loc_x := none, loc_y := none, shot_zone := none, action_type := none }

/-- A one-row table whose checked columns are all null. -/
def nullColsTable : ShotTable :=
  { cols := REQUIRED_COLUMNS, rows := [nullColsRow] }

/-! ### Raw tables, column validation and dtype conversion -/

/-- A raw parsed CSV table: its header labels and its rows of raw cells
(row cells are positional, aligned with `cols`). -/
structure RawTable where
  cols : List String
  rows : List (List RawValue)
deriving DecidableEq

/-- Embedding of `validate_columns` (`data_loader.py` lines 81-93): the
required columns absent from the header, in the order of
`REQUIRED_COLUMNS`; raise `MissingColumnsError` with that list when it
is non-empty. -/
def validate_columns (df : RawTable) : Except (List String) Unit :=
  if (REQUIRED_COLUMNS.filter (fun c => !(df.cols.contains c))).isEmpty
  then .ok ()
  else .error (REQUIRED_COLUMNS.filter (fun c => !(df.cols.contains c)))

/-- The cell of a raw row under a named column (missing → NaN, as pandas
column access after `validate_columns` cannot miss, and a short row
reads as NaN). -/
def cellAt (df : RawTable) (row : List RawValue) (c : String) : RawValue :=
  match df.cols.indexOf? c with
  | some i => row.getD i .nan
  | none => .nan

/-- One named column of a raw table. -/
def getCol (df : RawTable) (c : String) : List RawValue :=
  df.rows.map (fun row => cellAt df row c)

/-- Python `str(value)` on a raw cell, as used by `astype(str)`.
Integral numbers render as integers (pandas integer columns); the
decimal rendering of non-integral floats is simplified to the rational
literal, which no proved property depends on. -/
def pyStr : RawValue → String
  | .nan => "nan"
  | .boolean b => if b then "True" else "False"
  | .num q => if q.den = 1 then toString q.num else toString q
  | .str s => s

/-- Digits of a decimal literal to a natural number. -/
def digitsToNat (l : List Char) : Nat :=
  l.foldl (fun a c => a * 10 + (c.toNat - 48)) 0

/-- Parse an unsigned decimal literal (digits, optional point, digits). -/
def parseUnsigned (l : List Char) : Option ℚ :=
  match l.span Char.isDigit with
  | (ds, []) => if ds.isEmpty then none else some (digitsToNat ds : ℚ)
  | (ds, c :: fs) =>
    if c = '.' && fs.all Char.isDigit && !(ds.isEmpty && fs.isEmpty) then
      some ((digitsToNat ds : ℚ) +
        (digitsToNat fs : ℚ) / ((10 : ℚ) ^ fs.length))
    else none

/-- Parse a signed decimal literal after stripping whitespace, modelling
the numeric parsing of `pd.to_numeric` on plain decimal literals. -/
def parseNumStr (s : String) : Option ℚ :=
  match (stripStr s).data with
  | '-' :: rest => (parseUnsigned rest).map (fun q => -q)
  | '+' :: rest => parseUnsigned rest
  | l => parseUnsigned l

/-- `pd.to_numeric(value, errors="coerce")` on one raw cell: numbers
pass through, booleans coerce to 0/1, unparseable strings and missing
cells coerce to NaN (`none`). -/
def toNumericCoerce : RawValue → Option ℚ
  | .nan => none
  | .boolean b => some (if b then 1 else 0)
  | .num q => some q
  | .str s => parseNumStr s

/-- The loader's error taxonomy (the exception types of
`data_loader.py`, with their structured payloads). -/
inductive LoadError where
  | fileNotFound : LoadError
  | wrongExtension (suffix : String) : LoadError
  | readFailure (msg : String) : LoadError
  | emptyFile : LoadError
  | missingColumns (cols : List String) : LoadError
  | invalidDataType (column expected detail : String) : LoadError
  | rangeError (msg : String) : LoadError
deriving DecidableEq

/-- Equality of embedded fallible results is decidable, so concrete
loader runs can be checked by evaluation. -/
instance {ε α : Type} [DecidableEq ε] [DecidableEq α] :
    DecidableEq (Except ε α) := fun x y =>
  match x, y with
  | .error a, .error b =>
    if h : a = b then .isTrue (by rw [h])
    else .isFalse (fun hc => h (by injection hc))
  | .error _, .ok _ => .isFalse (fun hc => Except.noConfusion hc)
  | .ok _, .error _ => .isFalse (fun hc => Except.noConfusion hc)
  | .ok a, .ok b =>
    if h : a = b then .isTrue (by rw [h])
    else .isFalse (fun hc => h (by injection hc))

/-- `Series.astype("Int64")` applied to a `to_numeric` column: nulls
stay null, integral values cast, a non-integral value raises (pandas
refuses the unsafe float→Int64 cast), reported as an
`InvalidDataTypeError` for the column. -/
def toInt64Col (column : String) (vals : List (Option ℚ)) :
    Except LoadError (List (Option Int)) :=
  vals.mapM (fun v =>
    match v with
    | none => .ok none
    | some q =>
      if q.den = 1 then .ok (some q.num)
      else .error (.invalidDataType column "integer"
        "cannot safely cast non-equivalent values"))

/-- `astype(str).replace("nan", pd.NA)` on one cell. -/
def strCell (v : RawValue) : Option String :=
  if pyStr v = "nan" then none else some (pyStr v)

/-- Embedding of `convert_dtypes` (`data_loader.py` lines 130-184):
column-wise coercion in the order of the code; the first failing column
aborts the conversion. String and float coercions are total (unparseable
cells become null); `Int64` casts and `shot_made` can fail. -/
def convert_dtypes (df : RawTable) : Except LoadError ShotTable := do
  let gameIds := (getCol df "game_id").map pyStr
  let playerIds ← toInt64Col "player_id"
    ((getCol df "player_id").map toNumericCoerce)
  let names := (getCol df "player_name").map strCell
  let teams := (getCol df "team").map strCell
  let shotTypes := (getCol df "shot_type").map strCell
  let zones := (getCol df "shot_zone").map strCell
  let actions := (getCol df "action_type").map strCell
  let periods ← toInt64Col "period"
    ((getCol df "period").map toNumericCoerce)
  let minutes ← toInt64Col "minutes_remaining"
    ((getCol df "minutes_remaining").map toNumericCoerce)
  let seconds ← toInt64Col "seconds_remaining"
    ((getCol df "seconds_remaining").map toNumericCoerce)
  let made ← (getCol df "shot_made").mapM (fun v =>
    match convert_shot_made v with
    | .ok b => .ok b
    | .error e => .error (LoadError.invalidDataType "shot_made" "boolean" e))
  let dists := (getCol df "shot_distance").map toNumericCoerce
  let xs := (getCol df "loc_x").map toNumericCoerce
  let ys := (getCol df "loc_y").map toNumericCoerce
  return { cols := df.cols
           rows := (List.range df.rows.length).map (fun i =>
             { game_id := gameIds.getD i "nan"
               player_id := playerIds.getD i none
               player_name := names.getD i none
               team := teams.getD i none
               period := periods.getD i none
               minutes_remaining := minutes.getD i none
               seconds_remaining := seconds.getD i none
               shot_made := made.getD i none
               shot_type := shotTypes.getD i none
               shot_distance := dists.getD i none
               loc_x := xs.getD i none
               loc_y := ys.getD i none
               shot_zone := zones.getD i none
               action_type := actions.getD i none }) }

/-! ### CSV loading (`load_shots_csv`, lines 245-306) -/

/-- The outcome of `pd.read_csv` on an existing `.csv` file. -/
inductive ParseOutcome where
  | failure (msg : String) : ParseOutcome
  | table (df : RawTable) : ParseOutcome
deriving DecidableEq

/-- The loader's view of the file system: the file is absent, or present
with a path suffix and a parse outcome. -/
inductive FileInput where
  | absent : FileInput
  | present (suffix : String) (outcome : ParseOutcome) : FileInput
deriving DecidableEq

/-- A loaded table: raw (returned when `validate=False`) or normalized
(returned when `validate=True`). -/
inductive LoadedTable where
  | raw (df : RawTable) : LoadedTable
  | normalized (df : ShotTable) : LoadedTable
deriving DecidableEq

/-- Embedding of `load_shots_csv` (`data_loader.py` lines 245-306):
existence check, extension check, parse, empty check; then — only if
`validate` — column validation, dtype conversion and range validation
(whose warnings are printed, not returned, when not strict). -/
def load_shots_csv (file : FileInput) (validate strict : Bool) :
    Except LoadError LoadedTable :=
  match file with
  | .absent => .error .fileNotFound
  | .present suffix outcome =>
    if lowerStr suffix ≠ ".csv" then .error (.wrongExtension suffix)
    else
      match outcome with
      | .failure msg => .error (.readFailure msg)
      | .table df =>
        if df.rows.length = 0 then .error .emptyFile
        else if validate then
          match validate_columns df with
          | .error missing => .error (.missingColumns missing)
          | .ok () =>
            match convert_dtypes df with
            | .error e => .error e
            | .ok df2 =>
              match validate_data_ranges df2 strict with
              | .error msg => .error (.rangeError msg)
              | .ok _ => .ok (.normalized df2)
        else .ok (.raw df)

/-- A raw table whose header has every required column except `team`. -/
def rawTableNoTeam : RawTable :=
  { cols := ["game_id", "player_id", "player_name", "period",
             "minutes_remaining", "seconds_remaining", "shot_made",
             "shot_type", "shot_distance", "loc_x", "loc_y", "shot_zone",
             "action_type"],
    rows := [[.str "g1"]] }

/-- A raw table with all required columns whose `shot_made` cell holds
the unconvertible string "maybe". -/
def rawTableBadMade : RawTable :=
  { cols := REQUIRED_COLUMNS,
    rows := [[.str "0022300001", .num 100, .str "A Player", .str "SAC",
              .num 1, .num 10, .num 30, .str "maybe",
              .str "2PT Field Goal", .num 5, .num 10, .num 20,
              .str "Paint", .str "Jump Shot"]] }

/-- A parsed table with a header and no data rows. -/
def emptyRawTable : RawTable := { cols := REQUIRED_COLUMNS, rows := [] }

/-! ### Three-point court geometry (`court.py` lines 216-253,
`config.py` lines 24-49)

The code computes with binary floats; the spec states the geometry as
real-valued identities ("within floating-point tolerance"), so the
computation is modelled over `ℝ` and the claimed decimals are checked
against proved rational bounds. -/

/-- `config.py`: arc radius from the basket centre, in feet. -/
noncomputable def THREE_POINT_RADIUS : ℝ := 23.75

/-- `config.py`: corner-three distance, in feet. -/
noncomputable def THREE_POINT_CORNER_DISTANCE : ℝ := 22.0

/-- `config.py`: the fixed feet→court-units scale factor. -/
noncomputable def NBA_API_SCALE : ℝ := 10.0

/-- `config.py`: baseline-to-rim-centre offset, in feet. -/
noncomputable def BACKBOARD_OFFSET : ℝ := 4.0

/-- `court.py` line 216: `three_pt_radius = THREE_POINT_RADIUS * NBA_API_SCALE`. -/
noncomputable def three_pt_radius : ℝ := THREE_POINT_RADIUS * NBA_API_SCALE

/-- `court.py` line 217: `corner_dist = THREE_POINT_CORNER_DISTANCE * NBA_API_SCALE`. -/
noncomputable def corner_dist : ℝ := THREE_POINT_CORNER_DISTANCE * NBA_API_SCALE

/-- `court.py` line 222: `arc_start_y = sqrt(three_pt_radius**2 - corner_dist**2)`. -/
noncomputable def arc_start_y : ℝ :=
  Real.sqrt (three_pt_radius ^ 2 - corner_dist ^ 2)

/-- `court.py` line 242, before degree conversion:
`arcsin(arc_start_y / three_pt_radius)`. -/
noncomputable def arc_angle_rad : ℝ :=
  Real.arcsin (arc_start_y / three_pt_radius)

/-- `court.py` line 242: `arc_angle = degrees(arcsin(...))`. -/
noncomputable def arc_angle : ℝ := arc_angle_rad * 180 / Real.pi

/-- A drawing primitive of the court model: a straight segment or an
elliptical arc (centre, width, height, start and end angle in degrees). -/
inductive CourtPrim where
  | seg (x1 y1 x2 y2 : ℝ) : CourtPrim
  | arc (cx cy w h t1 t2 : ℝ) : CourtPrim

/-- The three-point primitives drawn by `draw_court` (lines 224-253):
the two corner segments from the baseline to `arc_start_y` at
`x = ±corner_dist`, and the arc about the basket from `arc_angle` to
`180 − arc_angle`. -/
noncomputable def threePtPrims : List CourtPrim :=
  [.seg (-corner_dist) (-(BACKBOARD_OFFSET * NBA_API_SCALE))
     (-corner_dist) arc_start_y,
   .seg corner_dist (-(BACKBOARD_OFFSET * NBA_API_SCALE))
     corner_dist arc_start_y,
   .arc 0 0 (three_pt_radius * 2) (three_pt_radius * 2)
     arc_angle (180 - arc_angle)]

/-! ### Theorems -/

theorem stripStr_of_mem_trueLiterals {v : String} (h : v ∈ trueLiterals) :
    stripStr v = v := by
  simp only [trueLiterals, List.mem_cons, List.not_mem_nil, or_false] at h
  rcases h with h | h | h | h | h <;> subst h <;> decide

theorem stripStr_of_mem_falseLiterals {v : String} (h : v ∈ falseLiterals) :
    stripStr v = v := by
  simp only [falseLiterals, List.mem_cons, List.not_mem_nil, or_false] at h
  rcases h with h | h | h | h | h <;> subst h <;> decide

theorem trueLiterals_disjoint_falseLiterals {v : String}
    (h : v ∈ trueLiterals) : v ∉ falseLiterals := by
  simp only [trueLiterals, List.mem_cons, List.not_mem_nil, or_false] at h
  rcases h with h | h | h | h | h <;> subst h <;> decide

/-- Claim C3: the `shot_made` coercion maps, case-insensitively, each of
the strings true/1/yes/made/y to true and false/0/no/missed/n to false;
passes genuine booleans through; truthiness-coerces numbers; maps
missing input to null; and for every other string fails with an error
naming the offending literal. -/
theorem C3_convert_shot_made_spec :
    (∀ s : String, lowerStr s ∈ trueLiterals →
        convert_shot_made (.str s) = .ok (some true)) ∧
    (∀ s : String, lowerStr s ∈ falseLiterals →
        convert_shot_made (.str s) = .ok (some false)) ∧
    (∀ b : Bool, convert_shot_made (.boolean b) = .ok (some b)) ∧
    (∀ q : ℚ, convert_shot_made (.num q) = .ok (some (decide (q ≠ 0)))) ∧
    convert_shot_made .nan = .ok none ∧
    (∀ s : String,
      stripStr (lowerStr s) ∉ trueLiterals →
      stripStr (lowerStr s) ∉ falseLiterals →
      convert_shot_made (.str s) =
        .error ("Cannot convert \x27" ++ s ++ "\x27 to boolean")) := by
  refine ⟨?_, ?_, ?_, ?_, rfl, ?_⟩
  · intro s h
    have hstrip := stripStr_of_mem_trueLiterals h
    simp [convert_shot_made, hstrip, h]
  · intro s h
    have hstrip := stripStr_of_mem_falseLiterals h
    have hT : lowerStr s ∉ trueLiterals := fun hc =>
      trueLiterals_disjoint_falseLiterals hc h
    simp [convert_shot_made, hstrip, h, hT]
  · intro b; rfl
  · intro q
    have hq : (q != 0) = decide (q ≠ 0) := by
      by_cases h : q = 0 <;> simp [h]
    simp only [convert_shot_made, hq]
  · intro s hT hF
    simp [convert_shot_made, hT, hF]

/-- Witness for C3: the theorem applied at the concrete inputs "TRUE",
"Missed", the boolean true, the number 5, NaN, and the string "maybe". -/
theorem C3_witness :
    convert_shot_made (.str "TRUE") = .ok (some true) ∧
    convert_shot_made (.str "Missed") = .ok (some false) ∧
    convert_shot_made (.boolean true) = .ok (some true) ∧
    convert_shot_made (.num 5) = .ok (some (decide ((5 : ℚ) ≠ 0))) ∧
    convert_shot_made .nan = .ok none ∧
    convert_shot_made (.str "maybe") =
      .error ("Cannot convert \x27maybe\x27 to boolean") :=
  ⟨C3_convert_shot_made_spec.1 "TRUE" (by decide),
   C3_convert_shot_made_spec.2.1 "Missed" (by decide),
   C3_convert_shot_made_spec.2.2.1 true,
   C3_convert_shot_made_spec.2.2.2.1 5,
   C3_convert_shot_made_spec.2.2.2.2.1,
   C3_convert_shot_made_spec.2.2.2.2.2 "maybe" (by decide) (by decide)⟩

theorem maybeFilter_eq_filter {α : Type} (crit : Option α)
    (mask : α → ShotRow → Bool) (rows : List ShotRow) :
    maybeFilter crit mask rows =
      rows.filter (fun r => crit.all (fun a => mask a r)) := by
  cases crit with
  | none => simp [maybeFilter, Option.all]
  | some a => simp [maybeFilter, Option.all]

theorem filter_shots_rows_eq (df : ShotTable) (pn : Option String)
    (pid : Option Int) (gid : Option String) (tm : Option String)
    (per : Option Int) (st : Option String) (mo : Option Bool) :
    (filter_shots df pn pid gid tm per st mo).rows =
      df.rows.filter (rowMatches pn pid gid tm per st mo) := by
  simp only [filter_shots, maybeFilter_eq_filter, List.filter_filter]
  apply List.filter_congr
  intro r _
  simp only [rowMatches]
  ac_rfl

/-- Claim C5: for every table and any subset of supplied criteria, the
filter returns a table containing exactly the rows satisfying all
supplied criteria (logical AND), omitted criteria impose no constraint,
and the output's column set equals the input's column set. -/
theorem C5_filter_shots_spec (df : ShotTable) (pn : Option String)
    (pid : Option Int) (gid : Option String) (tm : Option String)
    (per : Option Int) (st : Option String) (mo : Option Bool) :
    (filter_shots df pn pid gid tm per st mo).cols = df.cols ∧
    (filter_shots df pn pid gid tm per st mo).rows =
      df.rows.filter (rowMatches pn pid gid tm per st mo) ∧
    (∀ r : ShotRow,
      r ∈ (filter_shots df pn pid gid tm per st mo).rows ↔
        r ∈ df.rows ∧ rowMatches pn pid gid tm per st mo r = true) ∧
    filter_shots df none none none none none none none =
      { cols := df.cols, rows := df.rows } := by
  refine ⟨rfl, filter_shots_rows_eq df pn pid gid tm per st mo, ?_, rfl⟩
  intro r
  rw [filter_shots_rows_eq df pn pid gid tm per st mo]
  exact List.mem_filter

/-- Claim C8: a row whose `shot_made` is null is never in the filter's
result when the made/missed criterion is supplied, whether it requests
made or missed shots. -/
theorem C8_unknown_never_matches (df : ShotTable) (pn : Option String)
    (pid : Option Int) (gid : Option String) (tm : Option String)
    (per : Option Int) (st : Option String) (m : Bool) (r : ShotRow)
    (hr : r ∈ (filter_shots df pn pid gid tm per st (some m)).rows) :
    r.shot_made ≠ none := by
  rw [filter_shots_rows_eq] at hr
  have hm := (List.mem_filter.mp hr).2
  simp only [rowMatches, Bool.and_eq_true, Option.all_some, madeMask] at hm
  intro hnone
  have hmm := hm.2
  rw [hnone] at hmm
  cases m <;> exact absurd hmm (by decide)

theorem countMade_add_missed_add_unknown (rows : List ShotRow) :
    countMade rows + countMissedRows rows + countUnknown rows =
      rows.length := by
  induction rows with
  | nil => rfl
  | cons r t ih =>
    rcases h : r.shot_made with _ | b
    · simp only [countMade, countMissedRows, countUnknown] at ih ⊢
      simp [List.filter_cons, h]
      omega
    · cases b <;>
        simp only [countMade, countMissedRows, countUnknown] at ih ⊢ <;>
        simp [List.filter_cons, h] <;> omega

/-- Counterexample to claim C1: on a one-row table whose `shot_made` is
null, the summary reports `made_shots = 0` and `missed_shots = 1`
(`total − made`), so `made + missed + unknown = 2 ≠ 1 = total`. -/
theorem C1_counterexample :
    ¬ (((get_shot_summary unknownTable).made_shots : ℤ) +
        (get_shot_summary unknownTable).missed_shots +
        (countUnknown unknownTable.rows : ℤ) =
      ((get_shot_summary unknownTable).total_shots : ℤ)) := by
  decide

/-- Claim C1 (amended): the summary satisfies
`made_count + missed_count == total_count` for every table; the reported
`missed_shots` figure equals `total − made` and therefore counts rows
with null `shot_made` together with the genuinely missed rows, so
`made_count + missed_count + unknown_count == total_count` holds exactly
when no row has null `shot_made`. -/
theorem C1_amended_count_identity (df : ShotTable) :
    ((get_shot_summary df).made_shots : ℤ) +
        (get_shot_summary df).missed_shots =
      ((get_shot_summary df).total_shots : ℤ) ∧
    (get_shot_summary df).made_shots = countMade df.rows ∧
    (get_shot_summary df).missed_shots =
      (countMissedRows df.rows : ℤ) + (countUnknown df.rows : ℤ) ∧
    (countUnknown df.rows = 0 →
      ((get_shot_summary df).made_shots : ℤ) +
          (get_shot_summary df).missed_shots +
          (countUnknown df.rows : ℤ) =
        ((get_shot_summary df).total_shots : ℤ)) := by
  have hkey := countMade_add_missed_add_unknown df.rows
  have h1 : (get_shot_summary df).made_shots = countMade df.rows := rfl
  have h2 : (get_shot_summary df).missed_shots =
      (df.rows.length : ℤ) - countMade df.rows := rfl
  have h3 : (get_shot_summary df).total_shots = df.rows.length := rfl
  refine ⟨?_, h1, ?_, fun h => ?_⟩
  · rw [h1, h2, h3]; omega
  · rw [h2]; omega
  · rw [h1, h2, h3]; omega

/-- Witness for C1: the amended theorem applied to the concrete one-row
table with no null `shot_made`, discharging the hypothesis
`countUnknown = 0` there. -/
theorem C1_amended_witness :
    ((get_shot_summary knownTable).made_shots : ℤ) +
        (get_shot_summary knownTable).missed_shots +
        (countUnknown knownTable.rows : ℤ) =
      ((get_shot_summary knownTable).total_shots : ℤ) :=
  (C1_amended_count_identity knownTable).2.2.2 (by decide)

/-- Claim C7: `fg_pct` is 0 when the table is empty and `made/total`
otherwise, and the same zero-guard applies to the 2PT and 3PT
sub-percentages. -/
theorem C7_pct_guards (df : ShotTable) :
    (df.rows.length = 0 → (get_shot_summary df).fg_pct = 0) ∧
    (df.rows.length ≠ 0 →
      (get_shot_summary df).fg_pct =
        (countMade df.rows : ℚ) / (df.rows.length : ℚ)) ∧
    ((typeRows "2PT" df.rows).length = 0 →
      (get_shot_summary df).two_pt_pct = 0) ∧
    ((typeRows "2PT" df.rows).length ≠ 0 →
      (get_shot_summary df).two_pt_pct =
        (countMade (typeRows "2PT" df.rows) : ℚ) /
          ((typeRows "2PT" df.rows).length : ℚ)) ∧
    ((typeRows "3PT" df.rows).length = 0 →
      (get_shot_summary df).three_pt_pct = 0) ∧
    ((typeRows "3PT" df.rows).length ≠ 0 →
      (get_shot_summary df).three_pt_pct =
        (countMade (typeRows "3PT" df.rows) : ℚ) /
          ((typeRows "3PT" df.rows).length : ℚ)) := by
  refine ⟨fun h => ?_, fun h => ?_, fun h => ?_, fun h => ?_,
    fun h => ?_, fun h => ?_⟩ <;>
    simp only [get_shot_summary] <;> simp [h]

/-- Witness for C7: both branches of each guard at concrete tables (the
empty table, and the one-row 2PT table for the nonzero and zero-subtotal
branches). -/
theorem C7_witness :
    (get_shot_summary emptyTable).fg_pct = 0 ∧
    (get_shot_summary knownTable).fg_pct =
      (countMade knownTable.rows : ℚ) / (knownTable.rows.length : ℚ) ∧
    (get_shot_summary knownTable).two_pt_pct =
      (countMade (typeRows "2PT" knownTable.rows) : ℚ) /
        ((typeRows "2PT" knownTable.rows).length : ℚ) ∧
    (get_shot_summary knownTable).three_pt_pct = 0 :=
  ⟨(C7_pct_guards emptyTable).1 rfl,
   (C7_pct_guards knownTable).2.1 (by decide),
   (C7_pct_guards knownTable).2.2.2.1 (by decide),
   (C7_pct_guards knownTable).2.2.2.2.1 (by decide)⟩

/-- Witness for C8: the theorem applied at a concrete table and row that
does pass the made-shots filter. -/
theorem C8_witness :
    knownRow ∈
      (filter_shots knownTable none none none none none none
        (some true)).rows ∧
    knownRow.shot_made ≠ none :=
  ⟨by decide,
   C8_unknown_never_matches knownTable none none none none none none true
     knownRow (by decide)⟩

theorem filterStep_df {α : Type} (crit : Option α)
    (mask : α → ShotRow → Bool) (st : FilterCallState) :
    (filterStep crit mask st).df = st.df := by
  cases crit <;> rfl

theorem filterStep_filtered {α : Type} (crit : Option α)
    (mask : α → ShotRow → Bool) (st : FilterCallState) :
    (filterStep crit mask st).filtered =
      { cols := st.filtered.cols,
        rows := maybeFilter crit mask st.filtered.rows } := by
  cases crit <;> rfl

/-- Claim C9: after a `filter_shots` call the caller's table is exactly
what it was before the call — every step writes only the local
`filtered` variable, and the result is the new table, not an in-place
modification of the input. -/
theorem C9_filter_no_mutation (df : ShotTable) (pn : Option String)
    (pid : Option Int) (gid : Option String) (tm : Option String)
    (per : Option Int) (st : Option String) (mo : Option Bool) :
    (filter_shots_exec df pn pid gid tm per st mo).df = df ∧
    (filter_shots_exec df pn pid gid tm per st mo).filtered =
      filter_shots df pn pid gid tm per st mo := by
  constructor
  · simp only [filter_shots_exec, filterStep_df]
  · simp only [filter_shots_exec, filterStep_filtered, copyTable,
      filter_shots]

theorem intRangeWarning_some {lo hi : Int} {get : ShotRow → Option Int}
    {desc : String} {df : ShotTable} {w : String}
    (h : intRangeWarning lo hi get desc df = some w) :
    ∃ n : Nat, 0 < n ∧ w = "Found " ++ toString n ++ " shots with " ++ desc := by
  unfold intRangeWarning at h
  split at h
  · split at h
    · exact ⟨_, by assumption, (Option.some_injective _ h).symm⟩
    · exact absurd h (by simp)
  · exact absurd h (by simp)

theorem ratRangeWarning_some {lo hi : ℚ} {get : ShotRow → Option ℚ}
    {desc : String} {df : ShotTable} {w : String}
    (h : ratRangeWarning lo hi get desc df = some w) :
    ∃ n : Nat, 0 < n ∧ w = "Found " ++ toString n ++ " shots with " ++ desc := by
  unfold ratRangeWarning at h
  split at h
  · split at h
    · exact ⟨_, by assumption, (Option.some_injective _ h).symm⟩
    · exact absurd h (by simp)
  · exact absurd h (by simp)

theorem intRangeWarning_skip {lo hi : Int} {get : ShotRow → Option Int}
    {desc : String} {df : ShotTable}
    (h : ∀ r ∈ df.rows, get r = none) :
    intRangeWarning lo hi get desc df = none := by
  unfold intRangeWarning
  have hany : df.rows.any (fun r => (get r).isSome) = false := by
    rw [List.any_eq_false]
    intro r hr
    rw [h r hr]
    simp
  rw [hany]
  simp

theorem ratRangeWarning_skip {lo hi : ℚ} {get : ShotRow → Option ℚ}
    {desc : String} {df : ShotTable}
    (h : ∀ r ∈ df.rows, get r = none) :
    ratRangeWarning lo hi get desc df = none := by
  unfold ratRangeWarning
  have hany : df.rows.any (fun r => (get r).isSome) = false := by
    rw [List.any_eq_false]
    intro r hr
    rw [h r hr]
    simp
  rw [hany]
  simp

/-- Claim C6: with strict false, range validation returns a list of at
most six warning strings, one per violated range, each carrying the
positive violation count, with all-null columns skipped, and never
raises; with strict true and at least one warning it fails with a single
aggregated error containing all warning text. -/
theorem C6_validate_data_ranges_spec (df : ShotTable) :
    validate_data_ranges df false = .ok (rangeWarnings df) ∧
    (rangeWarnings df).length ≤ 6 ∧
    (∀ w ∈ rangeWarnings df, ∃ n : Nat, ∃ d ∈ rangeDescs,
      0 < n ∧ w = "Found " ++ toString n ++ " shots with " ++ d) ∧
    ((∀ r ∈ df.rows, r.period = none) →
      intRangeWarning 1 10 (fun r => r.period) "unusual period values" df
        = none) ∧
    ((∀ r ∈ df.rows, r.minutes_remaining = none) →
      intRangeWarning 0 12 (fun r => r.minutes_remaining)
        "minutes outside 0-12 range" df = none) ∧
    ((∀ r ∈ df.rows, r.seconds_remaining = none) →
      intRangeWarning 0 59 (fun r => r.seconds_remaining)
        "seconds outside 0-59 range" df = none) ∧
    ((∀ r ∈ df.rows, r.shot_distance = none) →
      ratRangeWarning 0 50 (fun r => r.shot_distance)
        "distance outside 0-50 feet" df = none) ∧
    ((∀ r ∈ df.rows, r.loc_x = none) →
      ratRangeWarning (-300) 300 (fun r => r.loc_x)
        "loc_x outside court bounds" df = none) ∧
    ((∀ r ∈ df.rows, r.loc_y = none) →
      ratRangeWarning (-100) 500 (fun r => r.loc_y)
        "loc_y outside court bounds" df = none) ∧
    (rangeWarnings df ≠ [] →
      validate_data_ranges df true =
        .error ("Data validation warnings:\n" ++
          String.intercalate "\n" (rangeWarnings df))) ∧
    (rangeWarnings df = [] → validate_data_ranges df true = .ok []) := by
  refine ⟨?_, ?_, ?_, intRangeWarning_skip, intRangeWarning_skip,
    intRangeWarning_skip, ratRangeWarning_skip, ratRangeWarning_skip,
    ratRangeWarning_skip, ?_, ?_⟩
  · simp [validate_data_ranges]
  · calc (rangeWarnings df).length ≤ (rangeWarningOpts df).length :=
          List.reduceOption_length_le _
      _ = 6 := rfl
  · intro w hw
    have hmem : some w ∈ rangeWarningOpts df :=
      List.reduceOption_mem_iff.mp hw
    simp only [rangeWarningOpts, List.mem_cons, List.not_mem_nil,
      or_false] at hmem
    rcases hmem with h | h | h | h | h | h
    · obtain ⟨n, hn, hw'⟩ := intRangeWarning_some h.symm
      exact ⟨n, _, by simp [rangeDescs], hn, hw'⟩
    · obtain ⟨n, hn, hw'⟩ := intRangeWarning_some h.symm
      exact ⟨n, _, by simp [rangeDescs], hn, hw'⟩
    · obtain ⟨n, hn, hw'⟩ := intRangeWarning_some h.symm
      exact ⟨n, _, by simp [rangeDescs], hn, hw'⟩
    · obtain ⟨n, hn, hw'⟩ := ratRangeWarning_some h.symm
      exact ⟨n, _, by simp [rangeDescs], hn, hw'⟩
    · obtain ⟨n, hn, hw'⟩ := ratRangeWarning_some h.symm
      exact ⟨n, _, by simp [rangeDescs], hn, hw'⟩
    · obtain ⟨n, hn, hw'⟩ := ratRangeWarning_some h.symm
      exact ⟨n, _, by simp [rangeDescs], hn, hw'⟩
  · intro hne
    have : (rangeWarnings df).isEmpty = false := by
      rcases h : rangeWarnings df with _ | _
      · exact absurd h hne
      · rfl
    simp [validate_data_ranges, this]
  · intro he
    simp [validate_data_ranges, he]

/-- Witness for C6: the theorem applied at concrete tables — a table
with an out-of-range period (strict failure and warning shape), a table
with an all-null period column (skip), and an in-range table (strict
success). -/
theorem C6_witness :
    validate_data_ranges badRangeTable false =
      .ok (rangeWarnings badRangeTable) ∧
    (∃ n : Nat, ∃ d ∈ rangeDescs, 0 < n ∧
      "Found 1 shots with unusual period values" =
        "Found " ++ toString n ++ " shots with " ++ d) ∧
    intRangeWarning 1 10 (fun r => r.period) "unusual period values"
      nullColsTable = none ∧
    validate_data_ranges badRangeTable true =
      .error ("Data validation warnings:\n" ++
        String.intercalate "\n" (rangeWarnings badRangeTable)) ∧
    validate_data_ranges knownTable true = .ok [] :=
  ⟨(C6_validate_data_ranges_spec badRangeTable).1,
   (C6_validate_data_ranges_spec badRangeTable).2.2.1
     "Found 1 shots with unusual period values" (by decide),
   (C6_validate_data_ranges_spec nullColsTable).2.2.2.1 (by decide),
   (C6_validate_data_ranges_spec badRangeTable).2.2.2.2.2.2.2.2.2.1
     (by decide),
   (C6_validate_data_ranges_spec knownTable).2.2.2.2.2.2.2.2.2.2
     (by decide)⟩

/-- Claim C4: a table with absent required columns fails with a
`MissingColumns` error enumerating every missing required name; a table
missing exactly `team` fails with the list `["team"]`; and at the loader
level no partial table is returned — the load ends in the
`MissingColumns` error. -/
theorem C4_missing_columns_spec (df : RawTable) :
    ((∃ c ∈ REQUIRED_COLUMNS, c ∉ df.cols) →
      ∃ m, validate_columns df = .error m ∧ m ≠ [] ∧
        (∀ c, c ∈ m ↔ (c ∈ REQUIRED_COLUMNS ∧ c ∉ df.cols))) ∧
    ((∀ c ∈ REQUIRED_COLUMNS, c ≠ "team" → df.cols.contains c = true) →
      df.cols.contains "team" = false →
      validate_columns df = .error ["team"]) ∧
    (∀ suffix strict m, lowerStr suffix = ".csv" → df.rows.length ≠ 0 →
      validate_columns df = .error m →
      load_shots_csv (.present suffix (.table df)) true strict =
        .error (.missingColumns m)) := by
  refine ⟨?_, ?_, ?_⟩
  · rintro ⟨c0, hc0R, hc0⟩
    have hc0m : c0 ∈ REQUIRED_COLUMNS.filter
        (fun c => !(df.cols.contains c)) := by
      rw [List.mem_filter]
      exact ⟨hc0R, by simpa using hc0⟩
    have hne : REQUIRED_COLUMNS.filter (fun c => !(df.cols.contains c))
        ≠ [] := List.ne_nil_of_mem hc0m
    have hie : (REQUIRED_COLUMNS.filter
        (fun c => !(df.cols.contains c))).isEmpty = false := by
      rcases hl : REQUIRED_COLUMNS.filter (fun c => !(df.cols.contains c))
      · exact absurd hl hne
      · rfl
    refine ⟨REQUIRED_COLUMNS.filter (fun c => !(df.cols.contains c)),
      by simp only [validate_columns, hie, Bool.false_eq_true, if_false],
      hne, fun c => ?_⟩
    rw [List.mem_filter]
    constructor
    · rintro ⟨h1, h2⟩
      exact ⟨h1, by simpa using h2⟩
    · rintro ⟨h1, h2⟩
      exact ⟨h1, by simpa using h2⟩
  · intro hall hteam
    have h01 : "game_id" ∈ df.cols := by
      simpa using hall "game_id" (by decide) (by decide)
    have h02 : "player_id" ∈ df.cols := by
      simpa using hall "player_id" (by decide) (by decide)
    have h03 : "player_name" ∈ df.cols := by
      simpa using hall "player_name" (by decide) (by decide)
    have h04 : "period" ∈ df.cols := by
      simpa using hall "period" (by decide) (by decide)
    have h05 : "minutes_remaining" ∈ df.cols := by
      simpa using hall "minutes_remaining" (by decide) (by decide)
    have h06 : "seconds_remaining" ∈ df.cols := by
      simpa using hall "seconds_remaining" (by decide) (by decide)
    have h07 : "shot_made" ∈ df.cols := by
      simpa using hall "shot_made" (by decide) (by decide)
    have h08 : "shot_type" ∈ df.cols := by
      simpa using hall "shot_type" (by decide) (by decide)
    have h09 : "shot_distance" ∈ df.cols := by
      simpa using hall "shot_distance" (by decide) (by decide)
    have h10 : "loc_x" ∈ df.cols := by
      simpa using hall "loc_x" (by decide) (by decide)
    have h11 : "loc_y" ∈ df.cols := by
      simpa using hall "loc_y" (by decide) (by decide)
    have h12 : "shot_zone" ∈ df.cols := by
      simpa using hall "shot_zone" (by decide) (by decide)
    have h13 : "action_type" ∈ df.cols := by
      simpa using hall "action_type" (by decide) (by decide)
    have hteamP : "team" ∉ df.cols := by simpa using hteam
    have hfilter : REQUIRED_COLUMNS.filter (fun c => !(df.cols.contains c))
        = ["team"] := by
      simp [REQUIRED_COLUMNS, List.filter_cons, h01, h02, h03, h04, h05,
        h06, h07, h08, h09, h10, h11, h12, h13, hteamP]
    simp only [validate_columns]
    rw [hfilter]
    rfl
  · intro suffix strict m hsuffix hrows hvc
    simp [load_shots_csv, hsuffix, hrows, hvc]

/-- Witness for C4: the theorem applied at the concrete raw table whose
header misses exactly the column `team`. -/
theorem C4_witness :
    (∃ m, validate_columns rawTableNoTeam = .error m ∧ m ≠ [] ∧
      (∀ c, c ∈ m ↔ (c ∈ REQUIRED_COLUMNS ∧ c ∉ rawTableNoTeam.cols))) ∧
    validate_columns rawTableNoTeam = .error ["team"] ∧
    load_shots_csv (.present ".csv" (.table rawTableNoTeam)) true false =
      .error (.missingColumns ["team"]) :=
  ⟨(C4_missing_columns_spec rawTableNoTeam).1
     ⟨"team", by decide, by decide⟩,
   (C4_missing_columns_spec rawTableNoTeam).2.1 (by decide) (by decide),
   (C4_missing_columns_spec rawTableNoTeam).2.2 ".csv" false ["team"]
     (by decide) (by decide) (by decide)⟩

/-- Claim C10: with `validate=False` the loader performs only the
file-existence, extension, parse-success and non-empty checks and
returns the raw parsed table as-is; the `MissingColumns` and type-error
guarantees hold only when `validate=True` (the final conjuncts exhibit a
table missing `team` and a table with an unconvertible `shot_made` that
both load untouched with `validate=False`, the latter failing with
`validate=True`). -/
theorem C10_validate_false_skips_validation :
    (∀ strict, load_shots_csv .absent false strict =
      .error .fileNotFound) ∧
    (∀ suffix outcome strict, lowerStr suffix ≠ ".csv" →
      load_shots_csv (.present suffix outcome) false strict =
        .error (.wrongExtension suffix)) ∧
    (∀ suffix msg strict, lowerStr suffix = ".csv" →
      load_shots_csv (.present suffix (.failure msg)) false strict =
        .error (.readFailure msg)) ∧
    (∀ suffix strict (df : RawTable), lowerStr suffix = ".csv" →
      df.rows.length = 0 →
      load_shots_csv (.present suffix (.table df)) false strict =
        .error .emptyFile) ∧
    (∀ suffix strict (df : RawTable), lowerStr suffix = ".csv" →
      df.rows.length ≠ 0 →
      load_shots_csv (.present suffix (.table df)) false strict =
        .ok (.raw df)) ∧
    load_shots_csv (.present ".csv" (.table rawTableNoTeam)) false false =
      .ok (.raw rawTableNoTeam) ∧
    load_shots_csv (.present ".csv" (.table rawTableBadMade)) false false =
      .ok (.raw rawTableBadMade) ∧
    load_shots_csv (.present ".csv" (.table rawTableBadMade)) true false =
      .error (.invalidDataType "shot_made" "boolean"
        "Cannot convert \x27maybe\x27 to boolean") := by
  refine ⟨fun strict => rfl, ?_, ?_, ?_, ?_, by decide, by decide,
    by decide⟩
  · intro suffix outcome strict h
    simp [load_shots_csv, h]
  · intro suffix msg strict h
    simp [load_shots_csv, h]
  · intro suffix strict df h hz
    simp [load_shots_csv, h, hz]
  · intro suffix strict df h hz
    simp [load_shots_csv, h, hz]

/-- Witness for C10: the theorem applied at concrete file inputs for
each guarded branch (absent file, wrong extension, parse failure, empty
table, non-empty table). -/
theorem C10_witness :
    load_shots_csv .absent false false = .error .fileNotFound ∧
    load_shots_csv (.present ".txt" (.failure "x")) false false =
      .error (.wrongExtension ".txt") ∧
    load_shots_csv (.present ".CSV" (.failure "boom")) false false =
      .error (.readFailure "boom") ∧
    load_shots_csv (.present ".csv" (.table emptyRawTable)) false false =
      .error .emptyFile ∧
    load_shots_csv (.present ".csv" (.table rawTableBadMade)) false false =
      .ok (.raw rawTableBadMade) :=
  ⟨C10_validate_false_skips_validation.1 false,
   C10_validate_false_skips_validation.2.1 ".txt" (.failure "x") false
     (by decide),
   C10_validate_false_skips_validation.2.2.1 ".CSV" "boom" false
     (by decide),
   C10_validate_false_skips_validation.2.2.2.1 ".csv" false emptyRawTable
     (by decide) (by decide),
   C10_validate_false_skips_validation.2.2.2.2.1 ".csv" false
     rawTableBadMade (by decide) (by decide)⟩

theorem arc_start_y_eq_sqrt : arc_start_y = Real.sqrt 8006.25 := by
  unfold arc_start_y three_pt_radius corner_dist THREE_POINT_RADIUS
    THREE_POINT_CORNER_DISTANCE NBA_API_SCALE
  norm_num

theorem three_pt_radius_eq : three_pt_radius = 237.5 := by
  unfold three_pt_radius THREE_POINT_RADIUS NBA_API_SCALE
  norm_num

theorem corner_dist_eq : corner_dist = 220 := by
  unfold corner_dist THREE_POINT_CORNER_DISTANCE NBA_API_SCALE
  norm_num

theorem arc_start_y_lt : arc_start_y < 89.48 := by
  rw [arc_start_y_eq_sqrt, Real.sqrt_lt' (by norm_num : (0:ℝ) < 89.48)]
  norm_num

theorem lt_arc_start_y : (89.47 : ℝ) < arc_start_y := by
  rw [arc_start_y_eq_sqrt]
  exact (Real.lt_sqrt (by norm_num : (0:ℝ) ≤ 89.47)).mpr (by norm_num)

/-- Counterexample to claim C2: the claimed junction height "≈ 89.9
units" is wrong — the actual value sqrt(237.5² − 220²) = sqrt(8006.25)
is below 89.48, more than 0.4 units away from 89.9, far outside any
floating-point tolerance. -/
theorem C2_counterexample : ¬ (|arc_start_y - 89.9| < 0.4) := by
  intro h
  have h2 := (abs_lt.mp h).1
  have h3 := arc_start_y_lt
  norm_num at h2 h3
  linarith

/-- Claim C2 (amended): with radius 237.5 and corner distance 220 court
units, the geometry satisfies `arc_start_y = sqrt(237.5² − 220²)`
(≈ 89.48, not ≈ 89.9: the proved bounds are 89.47 < arc_start_y
< 89.48), the sweep angle is `arcsin(arc_start_y / 237.5)` from each
sideline (≈ 22.13°, not 22.46°: the proved bounds are 21.5° <
arc_angle < 22.46°), the arc's junction point lies exactly on the
corner line `x = ±220` at height `arc_start_y`, and two straight
segments connect the arc ends to the baseline at the corner distance on
each side. -/
theorem C2_amended_three_point_geometry :
    arc_start_y ^ 2 = three_pt_radius ^ 2 - corner_dist ^ 2 ∧
    0 ≤ arc_start_y ∧
    (89.47 : ℝ) < arc_start_y ∧ arc_start_y < 89.48 ∧
    Real.sin arc_angle_rad = arc_start_y / three_pt_radius ∧
    three_pt_radius * Real.cos arc_angle_rad = corner_dist ∧
    three_pt_radius * Real.sin arc_angle_rad = arc_start_y ∧
    (21.5 : ℝ) < arc_angle ∧ arc_angle < 22.46 ∧
    threePtPrims =
      [.seg (-corner_dist) (-(BACKBOARD_OFFSET * NBA_API_SCALE))
         (-corner_dist) arc_start_y,
       .seg corner_dist (-(BACKBOARD_OFFSET * NBA_API_SCALE))
         corner_dist arc_start_y,
       .arc 0 0 (three_pt_radius * 2) (three_pt_radius * 2)
         arc_angle (180 - arc_angle)] := by
  have hy0 : 0 ≤ arc_start_y := by
    rw [arc_start_y_eq_sqrt]; exact Real.sqrt_nonneg _
  have hr : three_pt_radius = 237.5 := three_pt_radius_eq
  have hc : corner_dist = 220 := corner_dist_eq
  have hylt := arc_start_y_lt
  have hygt := lt_arc_start_y
  have hrpos : (0 : ℝ) < three_pt_radius := by rw [hr]; norm_num
  have hq_nonneg : 0 ≤ arc_start_y / three_pt_radius :=
    div_nonneg hy0 hrpos.le
  have hq_le_one : arc_start_y / three_pt_radius ≤ 1 := by
    rw [div_le_one hrpos, hr]
    norm_num at hylt ⊢
    linarith
  have hsin : Real.sin arc_angle_rad = arc_start_y / three_pt_radius :=
    Real.sin_arcsin (by linarith) hq_le_one
  have hsq : arc_start_y ^ 2 = three_pt_radius ^ 2 - corner_dist ^ 2 := by
    rw [arc_start_y_eq_sqrt,
      Real.sq_sqrt (by norm_num : (0:ℝ) ≤ 8006.25), hr, hc]
    norm_num
  have hcos : three_pt_radius * Real.cos arc_angle_rad = corner_dist := by
    have h1 : Real.cos arc_angle_rad =
        Real.sqrt (1 - (arc_start_y / three_pt_radius) ^ 2) :=
      Real.cos_arcsin _
    have h2 : (arc_start_y / three_pt_radius) ^ 2 = 8006.25 / 56406.25 := by
      rw [div_pow, arc_start_y_eq_sqrt,
        Real.sq_sqrt (by norm_num : (0:ℝ) ≤ 8006.25), hr]
      norm_num
    rw [h1, h2, show (1:ℝ) - 8006.25 / 56406.25 = (220 / 237.5) ^ 2
        by norm_num,
      Real.sqrt_sq (by norm_num : (0:ℝ) ≤ 220 / 237.5), hr, hc]
    norm_num
  have hrsin : three_pt_radius * Real.sin arc_angle_rad = arc_start_y := by
    rw [hsin, mul_comm]
    exact div_mul_cancel₀ _ (by rw [hr]; norm_num)
  have hq_lb : (0.3767 : ℝ) < arc_start_y / three_pt_radius := by
    rw [hr, lt_div_iff₀ (by norm_num : (0:ℝ) < 237.5)]
    norm_num at hygt ⊢
    linarith
  have hq_ub : arc_start_y / three_pt_radius < 0.376749 := by
    rw [hr, div_lt_iff₀ (by norm_num : (0:ℝ) < 237.5)]
    have hy' : arc_start_y < 89.4778875 := by
      rw [arc_start_y_eq_sqrt,
        Real.sqrt_lt' (by norm_num : (0:ℝ) < 89.4778875)]
      norm_num
    norm_num at hy' ⊢
    linarith
  have ht_pos : 0 < arc_angle_rad := by
    unfold arc_angle_rad
    exact Real.arcsin_pos.mpr (by linarith)
  have hπ1 : (3.141592 : ℝ) < Real.pi := Real.pi_gt_d6
  have hπ2 : Real.pi < 3.141593 := Real.pi_lt_d6
  have hπpos : (0 : ℝ) < Real.pi := Real.pi_pos
  have hmem1 : (1 : ℝ) ∈ Set.Ioc (-(Real.pi / 2)) (Real.pi / 2) := by
    constructor
    · linarith
    · linarith
  have ht_lt_one : arc_angle_rad < 1 := by
    unfold arc_angle_rad
    rw [Real.arcsin_lt_iff_lt_sin' hmem1]
    have hsin1 : (0.75 : ℝ) < Real.sin 1 := by
      have := Real.sin_gt_sub_cube (by norm_num : (0:ℝ) < 1)
        (le_refl (1:ℝ))
      norm_num at this
      linarith
    linarith
  have hcube : arc_angle_rad - arc_angle_rad ^ 3 / 4 <
      arc_start_y / three_pt_radius := by
    rw [← hsin]
    exact Real.sin_gt_sub_cube ht_pos ht_lt_one.le
  have ht_gt : (0.3767 : ℝ) < arc_angle_rad := by
    have hsl := Real.sin_lt ht_pos
    rw [hsin] at hsl
    linarith
  have ht_lt : arc_angle_rad < 0.3919 := by
    nlinarith [hcube, ht_pos, ht_lt_one, hq_ub,
      sq_nonneg (arc_angle_rad - 0.3919), sq_nonneg (arc_angle_rad - 1),
      mul_pos ht_pos ht_pos]
  have hdeg_ub : arc_angle < 22.46 := by
    unfold arc_angle
    rw [div_lt_iff₀ hπpos]
    nlinarith [ht_lt, hπ1]
  have hdeg_lb : (21.5 : ℝ) < arc_angle := by
    unfold arc_angle
    rw [lt_div_iff₀ hπpos]
    nlinarith [ht_gt, hπ2]
  exact ⟨hsq, hy0, hygt, hylt, hsin, hcos, hrsin, hdeg_lb, hdeg_ub, rfl⟩

end KingsShotCharts
